import Mathlib

/-!
Verification of the SQLite database optimizer
(`src/optimization/sqlite-db-optimizer.py`) against its design
specification.  The catalog of an SQLite database (the rows of
`sqlite_master`, per-table column/index/foreign-key metadata and row
samples) is modelled as plain data, and each method of
`DatabaseOptimizer` is translated into a Lean function over that data.
Database failures (connection, catalog queries, DDL execution, VACUUM)
are modelled by an oracle record `Env`, since the engine treats the
connection layer as an external collaborator.
-/

namespace DbOptimizer

/-- A raw SQLite value as returned by a row sample. -/
inductive SQLValue where
  | null : SQLValue
  | intVal : Int → SQLValue
  | text : String → SQLValue
  | blob : List Nat → SQLValue
deriving DecidableEq

/-- Python truthiness of a sampled value (`if sample[0]`). -/
def truthy : SQLValue → Bool
  | SQLValue.null => false
  | SQLValue.intVal n => n != 0
  | SQLValue.text s => !s.data.isEmpty
  | SQLValue.blob b => !b.isEmpty

/-- One row of `sqlite_master`: the object kind (`table`, `index`, `view`,
`trigger`) and its name. -/
structure MasterRow where
  type : String
  name : String
deriving DecidableEq

/-- One row of `PRAGMA table_info(t)`: (cid, name, type, notnull, dflt_value, pk). -/
structure ColumnInfo where
  cid : Nat
  name : String
  declType : String
  notnull : Bool
  dflt : Option SQLValue
  pk : Nat
deriving DecidableEq

/-- One row of `PRAGMA index_list(t)`; the optimizer only reads field 1 (the name). -/
structure IndexInfo where
  seq : Nat
  name : String
  unique : Bool
deriving DecidableEq

/-- One row of `PRAGMA foreign_key_list(t)`; the optimizer only reads field 3
(the referencing column `from`). -/
structure ForeignKeyInfo where
  id : Nat
  seq : Nat
  refTable : String
  fromCol : String
  toCol : String
deriving DecidableEq

/-- Per-table metadata and stored data, as the PRAGMA queries and
`SELECT col FROM t` report it. `colData` maps a column name to the
column values of the stored rows, in storage order. -/
structure Table where
  name : String
  columns : List ColumnInfo
  indexes : List IndexInfo
  foreignKeys : List ForeignKeyInfo
  colData : List (String × List SQLValue)
deriving DecidableEq

/-- A database: the catalog (`sqlite_master`) plus the per-table detail the
PRAGMA queries serve. Internal tables such as `sqlite_sequence` appear in
`objects` with type `table`, as SQLite stores them. -/
structure Database where
  objects : List MasterRow
  tables : List Table
deriving DecidableEq

/-- `SELECT name FROM sqlite_master WHERE type='table'`. -/
def listTables (db : Database) : List String :=
  (db.objects.filter (fun r => r.type == "table")).map MasterRow.name

/-- Detail lookup backing the PRAGMA queries; a name with no stored detail
behaves as an empty table. -/
def getTable (db : Database) (tn : String) : Table :=
  (db.tables.find? (fun t => t.name == tn)).getD
    { name := tn, columns := [], indexes := [], foreignKeys := [], colData := [] }

/-- `SELECT {col} FROM {t} LIMIT 100`. -/
def sampleColumn (t : Table) (col : String) : List SQLValue :=
  (((t.colData.find? (fun p => p.1 == col)).map Prod.snd).getD []).take 100

/-- The per-table record built by `analyze_table_structure`. -/
structure TableAnalysis where
  columns : List ColumnInfo
  indexes : List IndexInfo
  foreign_keys : List ForeignKeyInfo
deriving DecidableEq

/-- `DatabaseOptimizer.analyze_table_structure`: one entry per enumerated
table, in enumeration order, holding its columns, indexes and foreign keys. -/
def analyze_table_structure (db : Database) : List (String × TableAnalysis) :=
  (listTables db).map (fun tn =>
    let t := getTable db tn
    (tn, { columns := t.columns, indexes := t.indexes, foreign_keys := t.foreignKeys }))

/-- The delimiter characters the normalization heuristic looks for. -/
def delimiters : List Char := [',', ';', '|', '/']

/-- `any(d in sample[0] for d in delimiters)`: each delimiter is a single
character, so substring containment is character membership. -/
def hasDelimiter (s : String) : Bool :=
  delimiters.any (fun d => s.data.contains d)

/-- The fixed issue text of `check_normalization`. -/
def normMsg : String := "Possible 1NF violation - multiple values in single column"

/-- One normalization finding. -/
structure NormalizationIssue where
  table : String
  column : String
  issue : String
  sample : String
deriving DecidableEq

/-- Loop body of `check_normalization` for one sampled value:
`if sample[0] and isinstance(sample[0], str): if any(d in sample[0] ...): append`. -/
def normEmit (tn col : String) (v : SQLValue) : List NormalizationIssue :=
  match v with
  | SQLValue.text s =>
      if truthy (SQLValue.text s) && hasDelimiter s then
        [{ table := tn, column := col, issue := normMsg, sample := s }]
      else []
  | _ => []

/-- `DatabaseOptimizer.check_normalization`. -/
def check_normalization (db : Database) : List NormalizationIssue :=
  (listTables db).flatMap (fun tn =>
    let t := getTable db tn
    t.columns.flatMap (fun c =>
      (sampleColumn t c.name).flatMap (normEmit tn c.name)))

/-- The candidate index name `idx_<table>_<column>`. -/
def indexName (tbl col : String) : String :=
  "idx_" ++ tbl ++ "_" ++ col

/-- One index recommendation. -/
structure IndexSuggestion where
  table : String
  column : String
  suggestion : String
  sql : String
deriving DecidableEq

/-- The dictionary `suggest_indexes` appends for an uncovered foreign key on
column `col` of table `tbl`. -/
def mkSuggestion (tbl col : String) : IndexSuggestion :=
  { table := tbl, column := col,
    suggestion := "Create index on foreign key column: " ++ col,
    sql := "CREATE INDEX " ++ indexName tbl col ++ " ON " ++ tbl ++ "(" ++ col ++ ")" }

/-- `DatabaseOptimizer.suggest_indexes`. -/
def suggest_indexes (db : Database) : List IndexSuggestion :=
  (listTables db).flatMap (fun tn =>
    let t := getTable db tn
    let existing := t.indexes.map IndexInfo.name
    t.foreignKeys.filterMap (fun fk =>
      if existing.contains (indexName tn fk.fromCol) then none
      else some (mkSuggestion tn fk.fromCol)))

/-- Whether an index named `idx_<table>_<column>` already exists for this
foreign key, which is exactly the check `suggest_indexes` performs. -/
def fkCovered (db : Database) (tn : String) (fk : ForeignKeyInfo) : Bool :=
  ((getTable db tn).indexes.map IndexInfo.name).contains (indexName tn fk.fromCol)

/-- `DatabaseOptimizer.optimize_queries`: the fixed advice list. -/
def optimize_queries : List String :=
  [ "-- Use EXISTS instead of IN for better performance",
    "SELECT * FROM table1 WHERE EXISTS (SELECT 1 FROM table2 WHERE table2.id = table1.id)",
    "-- Use JOIN instead of subqueries where possible",
    "SELECT t1.*, t2.* FROM table1 t1 JOIN table2 t2 ON t1.id = t2.id",
    "-- Use EXPLAIN QUERY PLAN to analyze query performance",
    "EXPLAIN QUERY PLAN SELECT * FROM your_table WHERE your_column = 'value'" ]

/-- The error taxonomy of the design: connection failure, catalog/sampling
query failure, DDL or VACUUM execution failure. -/
inductive DbError where
  | connectionError : DbError
  | catalogError : DbError
  | executionError : String → DbError
deriving DecidableEq

/-- Failure oracle for the external database layer: which calls raise.
`createFails` decides per DDL statement whether `cursor.execute` raises. -/
structure Env where
  connectFails : Bool
  analyzeFails : Bool
  normalizeFails : Bool
  suggestFails : Bool
  createFails : String → Bool
  vacuumFails : Bool

/-- An sqlite3 connection object; `closedFlag` records that `close()` was
called on it. -/
structure Conn where
  closedFlag : Bool
deriving DecidableEq

/-- The mutable optimizer state: `self.conn`, initially `None`. -/
structure OptimizerState where
  conn : Option Conn
deriving DecidableEq

/-- `DatabaseOptimizer.connect`: on success `self.conn` holds a fresh open
connection; on failure the exception propagates and `self.conn` keeps its
previous value. -/
def connect (env : Env) (s : OptimizerState) : OptimizerState × Option DbError :=
  if env.connectFails then (s, some DbError.connectionError)
  else ({ conn := some { closedFlag := false } }, none)

/-- `DatabaseOptimizer.close`: `if self.conn: self.conn.close()`. The second
component records whether a close operation was actually performed. -/
def close (s : OptimizerState) : OptimizerState × Bool :=
  match s.conn with
  | none => (s, false)
  | some _ => ({ conn := some { closedFlag := true } }, true)

/-- Whether the state holds an open (not yet closed) connection. -/
def connOpen (s : OptimizerState) : Bool :=
  match s.conn with
  | none => false
  | some c => !c.closedFlag

/-- The report dictionary of `generate_optimization_report`. -/
structure Report where
  table_analysis : List (String × TableAnalysis)
  normalization_issues : List NormalizationIssue
  index_suggestions : List IndexSuggestion
  query_optimizations : List String
deriving DecidableEq

/-- Outcome of one `generate_optimization_report` call: the returned report
or the propagated error, the state after the `finally` block, and whether
`close()` was reached. -/
structure ReportRun where
  result : Except DbError Report
  finalState : OptimizerState
  closeAttempted : Bool

/-- `DatabaseOptimizer.generate_optimization_report`: connect, run the four
analysis steps in order, and release the connection in a `finally` block on
every exit path; any failure is re-raised after the release. -/
def generate_optimization_report (env : Env) (db : Database) (s : OptimizerState) : ReportRun :=
  match connect env s with
  | (s1, some e) =>
      { result := Except.error e, finalState := (close s1).1, closeAttempted := true }
  | (s1, none) =>
      if env.analyzeFails then
        { result := Except.error DbError.catalogError, finalState := (close s1).1,
          closeAttempted := true }
      else if env.normalizeFails then
        { result := Except.error DbError.catalogError, finalState := (close s1).1,
          closeAttempted := true }
      else if env.suggestFails then
        { result := Except.error DbError.catalogError, finalState := (close s1).1,
          closeAttempted := true }
      else
        { result := Except.ok
            { table_analysis := analyze_table_structure db,
              normalization_issues := check_normalization db,
              index_suggestions := suggest_indexes db,
              query_optimizations := optimize_queries },
          finalState := (close s1).1, closeAttempted := true }

/-- Effect of a successful `CREATE INDEX <idx> ON <tbl>(...)` on the
database: the index joins the table's index list and the catalog. -/
def applyCreateIndex (db : Database) (tbl idx : String) : Database :=
  { objects := db.objects ++ [{ type := "index", name := idx }],
    tables := db.tables.map (fun t =>
      if t.name == tbl then
        { t with indexes := t.indexes ++ [{ seq := 0, name := idx, unique := false }] }
      else t) }

/-- The index-application loop of `execute_optimization`: each suggestion is
attempted under its own try/except, so a failing statement is logged and the
loop continues. Returns the mutated database, the statements applied and the
statements whose failure was logged, in loop order. -/
def runIndexLoop (env : Env) : Database → List IndexSuggestion → Database × List String × List String
  | db, [] => (db, [], [])
  | db, sg :: rest =>
      if env.createFails sg.sql then
        let r := runIndexLoop env db rest
        (r.1, r.2.1, sg.sql :: r.2.2)
      else
        let r := runIndexLoop env (applyCreateIndex db sg.table (indexName sg.table sg.column)) rest
        (r.1, sg.sql :: r.2.1, r.2.2)

/-- Outcome of one `execute_optimization` call. -/
structure ExecRun where
  connected : Bool
  attempted : List String
  applied : List String
  errorsLogged : List String
  vacuumed : Bool
  committed : Bool
  dbAfter : Database
  result : Option DbError
  finalState : OptimizerState
  closeAttempted : Bool

/-- `DatabaseOptimizer.execute_optimization`: connect; if `optimize_indexes`,
recompute the suggestions and attempt each one under a local try/except; if
`vacuum`, run VACUUM with no local handler, so its failure reaches the outer
handler and is re-raised; then commit; `close()` runs in the `finally` block
on every path. -/
def execute_optimization (env : Env) (db : Database) (s : OptimizerState)
    (optimize_indexes : Bool) (vacuum : Bool) : ExecRun :=
  match connect env s with
  | (s1, some e) =>
      { connected := false, attempted := [], applied := [], errorsLogged := [],
        vacuumed := false, committed := false, dbAfter := db,
        result := some e, finalState := (close s1).1, closeAttempted := true }
  | (s1, none) =>
      if optimize_indexes && env.suggestFails then
        { connected := true, attempted := [], applied := [], errorsLogged := [],
          vacuumed := false, committed := false, dbAfter := db,
          result := some DbError.catalogError, finalState := (close s1).1,
          closeAttempted := true }
      else
        let suggs := if optimize_indexes then suggest_indexes db else []
        let loop := runIndexLoop env db suggs
        if vacuum && env.vacuumFails then
          { connected := true, attempted := suggs.map IndexSuggestion.sql,
            applied := loop.2.1, errorsLogged := loop.2.2,
            vacuumed := false, committed := false, dbAfter := loop.1,
            result := some (DbError.executionError "VACUUM"), finalState := (close s1).1,
            closeAttempted := true }
        else
          { connected := true, attempted := suggs.map IndexSuggestion.sql,
            applied := loop.2.1, errorsLogged := loop.2.2,
            vacuumed := vacuum, committed := true, dbAfter := loop.1,
            result := none, finalState := (close s1).1, closeAttempted := true }

/-! Helper lemmas shared by the claim theorems. -/

/-- A `filterMap` whose body keeps exactly the elements failing a test is a
`filter` followed by a `map`. -/
theorem filterMap_ite_eq_filter_map {α β : Type} (p : α → Bool) (g : α → β) :
    ∀ l : List α,
      (l.filterMap (fun a => if p a then none else some (g a)))
        = (l.filter (fun a => !p a)).map g := by
  intro l
  induction l with
  | nil => rfl
  | cons a t ih =>
      by_cases h : p a = true
      · simp [List.filterMap_cons, h, ih]
      · simp [List.filterMap_cons, Bool.of_not_eq_true h, ih]

/-- `suggest_indexes` emits exactly one suggestion, built by `mkSuggestion`,
per foreign key not covered by an index named `idx_<table>_<column>`, in
table-major, foreign-key-declaration order. -/
theorem suggest_indexes_eq (db : Database) :
    suggest_indexes db
      = (listTables db).flatMap (fun tn =>
          ((getTable db tn).foreignKeys.filter (fun fk => !fkCovered db tn fk)).map
            (fun fk => mkSuggestion tn fk.fromCol)) := by
  unfold suggest_indexes
  refine List.flatMap_congr (fun tn _ => ?_)
  exact filterMap_ite_eq_filter_map (fun fk => fkCovered db tn fk)
    (fun fk => mkSuggestion tn fk.fromCol) (getTable db tn).foreignKeys

/-- A delimiter-containing string is non-empty, hence truthy. -/
theorem hasDelimiter_nonempty (s : String) (h : hasDelimiter s = true) :
    s.data.isEmpty = false := by
  unfold hasDelimiter at h
  rcases List.any_eq_true.mp h with ⟨d, _, hd⟩
  cases hsd : s.data with
  | nil => rw [hsd] at hd; simp at hd
  | cons a t => simp [hsd]

/-- Everything that is true of a normalization finding at the moment it is
appended: which value produced it and the exact field contents. -/
theorem normEmit_mem {tn col : String} {v : SQLValue} {i : NormalizationIssue}
    (h : i ∈ normEmit tn col v) :
    ∃ s, v = SQLValue.text s ∧ hasDelimiter s = true ∧
      i = { table := tn, column := col, issue := normMsg, sample := s } := by
  cases v with
  | text s =>
      simp only [normEmit] at h
      by_cases hc : (truthy (SQLValue.text s) && hasDelimiter s) = true
      · rw [if_pos hc] at h
        rw [Bool.and_eq_true] at hc
        exact ⟨s, rfl, hc.2, List.mem_singleton.mp h⟩
      · rw [if_neg hc] at h
        exact absurd h (List.not_mem_nil i)
  | null => exact absurd h (List.not_mem_nil i)
  | intVal n => exact absurd h (List.not_mem_nil i)
  | blob b => exact absurd h (List.not_mem_nil i)

/-- The result of the report pass does not depend on the incoming optimizer
state: it is a function of the failure oracle and the database alone. -/
theorem report_result_state_independent (env : Env) (db : Database)
    (s₁ s₂ : OptimizerState) :
    (generate_optimization_report env db s₁).result
      = (generate_optimization_report env db s₂).result := by
  cases hc : env.connectFails <;>
    simp [generate_optimization_report, connect, hc]

/-- The statements the index loop applies are exactly those the failure
oracle lets through, and the logged failures are the complement, in order. -/
theorem runIndexLoop_applied_logged (env : Env) :
    ∀ (db : Database) (l : List IndexSuggestion),
      (runIndexLoop env db l).2.1
          = (l.map IndexSuggestion.sql).filter (fun q => !env.createFails q)
        ∧ (runIndexLoop env db l).2.2
          = (l.map IndexSuggestion.sql).filter (fun q => env.createFails q) := by
  intro db l
  induction l generalizing db with
  | nil => exact ⟨rfl, rfl⟩
  | cons sg rest ih =>
      by_cases h : env.createFails sg.sql = true
      · have := ih db
        simp [runIndexLoop, h, (ih db).1, (ih db).2]
      · simp [runIndexLoop, Bool.of_not_eq_true h,
          (ih (applyCreateIndex db sg.table (indexName sg.table sg.column))).1,
          (ih (applyCreateIndex db sg.table (indexName sg.table sg.column))).2]

/-- Per-value issue emission as §4.3 of the specification words it: a
text-typed, non-null sampled value containing a character of the fixed
delimiter set yields one issue carrying the offending raw sample; any other
value yields none. Stated separately from `normEmit` (the code's loop body)
so the two can be compared. -/
def specIssuesForValue (tn col : String) (v : SQLValue) : List NormalizationIssue :=
  match v with
  | SQLValue.text s =>
      if hasDelimiter s then
        [{ table := tn, column := col, issue := normMsg, sample := s }]
      else []
  | _ => []

/-- The code's per-value emission agrees with the specification's: the
truthiness test the code adds is redundant, because a delimiter-containing
string is never empty. -/
theorem normEmit_eq_spec (tn col : String) (v : SQLValue) :
    normEmit tn col v = specIssuesForValue tn col v := by
  cases v with
  | text s =>
      by_cases hd : hasDelimiter s = true
      · simp [normEmit, specIssuesForValue, truthy, hd, hasDelimiter_nonempty s hd]
      · simp [normEmit, specIssuesForValue, truthy, Bool.of_not_eq_true hd]
  | null => rfl
  | intVal n => rfl
  | blob b => rfl

/-- SQLite marks its internal schema objects with the reserved name prefix
`sqlite_`. -/
def isInternalName (s : String) : Bool :=
  "sqlite_".data.isPrefixOf s.data

/-! Concrete databases used to instantiate the theorems. -/

/-- The scenario table of §8: `orders(id, customer_id, notes)` with a
foreign key `customer_id → customers.id`, no index, and a sampled `notes`
value `"a,b,c"`. -/
def ordersTable : Table :=
  { name := "orders",
    columns :=
      [ { cid := 0, name := "id", declType := "INTEGER", notnull := true, dflt := none, pk := 1 },
        { cid := 1, name := "customer_id", declType := "INTEGER", notnull := false, dflt := none, pk := 0 },
        { cid := 2, name := "notes", declType := "TEXT", notnull := false, dflt := none, pk := 0 } ],
    indexes := [],
    foreignKeys :=
      [ { id := 0, seq := 0, refTable := "customers", fromCol := "customer_id", toCol := "id" } ],
    colData :=
      [ ("id", [SQLValue.intVal 1]),
        ("customer_id", [SQLValue.intVal 7]),
        ("notes", [SQLValue.text "a,b,c"]) ] }

/-- A one-table database around `ordersTable`. -/
def dbOrders : Database :=
  { objects := [{ type := "table", name := "orders" }], tables := [ordersTable] }

/-- The same table with its foreign key covered by an identically-named
index. -/
def dbCovered : Database :=
  { objects :=
      [ { type := "table", name := "orders" },
        { type := "index", name := "idx_orders_customer_id" } ],
    tables :=
      [ { ordersTable with
            indexes := [{ seq := 0, name := "idx_orders_customer_id", unique := false }] } ] }

/-- A database whose catalog holds, as SQLite does for a schema with an
AUTOINCREMENT table, the internal bookkeeping table `sqlite_sequence` with
type `table`. -/
def dbInternal : Database :=
  { objects :=
      [ { type := "table", name := "users" },
        { type := "table", name := "sqlite_sequence" },
        { type := "view", name := "v_users" } ],
    tables :=
      [ { name := "users", columns := [], indexes := [], foreignKeys := [], colData := [] },
        { name := "sqlite_sequence", columns := [], indexes := [], foreignKeys := [], colData := [] } ] }

/-! Claim theorems. -/

/-- C1: in a schema where every foreign key lacks an index named
`idx_<table>_<column>`, `suggest_indexes` emits exactly one suggestion per
foreign key — the list is precisely one `mkSuggestion` per foreign key, in
order — and every suggestion's `sql` field is exactly
`CREATE INDEX idx_<table>_<column> ON <table>(<column>)`; in a schema where
every foreign key is covered by an identically-named index it returns the
empty list. -/
theorem suggest_indexes_uncovered_covered (db : Database) :
    ((∀ tn ∈ listTables db, ∀ fk ∈ (getTable db tn).foreignKeys,
        fkCovered db tn fk = false) →
      suggest_indexes db
        = (listTables db).flatMap (fun tn =>
            (getTable db tn).foreignKeys.map (fun fk => mkSuggestion tn fk.fromCol)))
    ∧ (∀ tbl col : String, (mkSuggestion tbl col).sql
        = "CREATE INDEX idx_" ++ tbl ++ "_" ++ col ++ " ON " ++ tbl ++ "(" ++ col ++ ")")
    ∧ ((∀ tn ∈ listTables db, ∀ fk ∈ (getTable db tn).foreignKeys,
        fkCovered db tn fk = true) →
      suggest_indexes db = []) := by
  refine ⟨fun hun => ?_, fun tbl col => ?_, fun hcov => ?_⟩
  · rw [suggest_indexes_eq]
    refine List.flatMap_congr (fun tn htn => ?_)
    congr 1
    refine List.filter_eq_self.mpr (fun fk hfk => ?_)
    rw [hun tn htn fk hfk]
    rfl
  · show "CREATE INDEX " ++ ("idx_" ++ tbl ++ "_" ++ col) ++ " ON "
        ++ tbl ++ "(" ++ col ++ ")" = _
    simp only [String.append_assoc]
    rfl
  · rw [suggest_indexes_eq]
    refine List.flatMap_eq_nil_iff.mpr (fun tn htn => ?_)
    have : (getTable db tn).foreignKeys.filter (fun fk => !fkCovered db tn fk) = [] := by
      refine List.filter_eq_nil_iff.mpr (fun fk hfk => ?_)
      rw [hcov tn htn fk hfk]
      decide
    rw [this]
    rfl

/-- Witness for C1 on the §8 scenario: the uncovered `orders.customer_id`
foreign key yields exactly its one suggestion with the literal DDL, and the
covered variant yields nothing. -/
theorem suggest_indexes_uncovered_covered_witness :
    suggest_indexes dbOrders
        = [{ table := "orders", column := "customer_id",
             suggestion := "Create index on foreign key column: customer_id",
             sql := "CREATE INDEX idx_orders_customer_id ON orders(customer_id)" }]
      ∧ suggest_indexes dbCovered = [] := by
  constructor
  · have h := (suggest_indexes_uncovered_covered dbOrders).1 (by decide)
    rw [h]
    decide
  · exact (suggest_indexes_uncovered_covered dbCovered).2.2 (by decide)

/-- C2: `check_normalization` treats every sampled value exactly as the
specification's per-value rule does: the whole issue list is the
concatenation, in table-major, column, sample order, of
`specIssuesForValue` over the sampled values; a text value without a
delimiter character contributes no issue, and a non-null text value with at
least one delimiter contributes exactly one issue whose `sample` field is
that exact value. -/
theorem check_normalization_per_value (db : Database) :
    check_normalization db
        = (listTables db).flatMap (fun tn =>
            (getTable db tn).columns.flatMap (fun c =>
              (sampleColumn (getTable db tn) c.name).flatMap
                (specIssuesForValue tn c.name)))
    ∧ (∀ tn col s, hasDelimiter s = false →
        specIssuesForValue tn col (SQLValue.text s) = [])
    ∧ (∀ tn col s, hasDelimiter s = true →
        specIssuesForValue tn col (SQLValue.text s)
          = [{ table := tn, column := col, issue := normMsg, sample := s }]) := by
  refine ⟨?_, fun tn col s h => ?_, fun tn col s h => ?_⟩
  · unfold check_normalization
    refine List.flatMap_congr (fun tn _ => ?_)
    refine List.flatMap_congr (fun c _ => ?_)
    exact List.flatMap_congr (fun v _ => normEmit_eq_spec tn c.name v)
  · simp [specIssuesForValue, h]
  · simp [specIssuesForValue, h]

/-- Witness for C2 on the §8 scenario: the sampled values `1`, `7` and
`"a,b,c"` produce exactly the one issue for the delimiter-bearing text. -/
theorem check_normalization_per_value_witness :
    check_normalization dbOrders
        = [{ table := "orders", column := "notes", issue := normMsg, sample := "a,b,c" }]
      ∧ specIssuesForValue "orders" "notes" (SQLValue.text "plain") = []
      ∧ specIssuesForValue "orders" "notes" (SQLValue.text "a,b,c")
          = [{ table := "orders", column := "notes", issue := normMsg, sample := "a,b,c" }] := by
  refine ⟨?_, ?_, ?_⟩
  · rw [(check_normalization_per_value dbOrders).1]
    decide
  · exact (check_normalization_per_value dbOrders).2.1 "orders" "notes" "plain" (by decide)
  · exact (check_normalization_per_value dbOrders).2.2 "orders" "notes" "a,b,c" (by decide)

/-- C3: `suggest_indexes` emits exactly one suggestion per uncovered foreign
key (its length is the number of foreign keys failing the name check), every
emitted suggestion's DDL is derived deterministically from its own table and
column through `idx_<table>_<column>`, and two report runs over the same
database — whatever optimizer state each starts from — return the same
suggestion list. -/
theorem suggest_indexes_deterministic (db : Database) :
    (suggest_indexes db).length
        = ((listTables db).map (fun tn =>
            ((getTable db tn).foreignKeys.filter (fun fk => !fkCovered db tn fk)).length)).sum
    ∧ (∀ sg ∈ suggest_indexes db,
        sg.sql = "CREATE INDEX " ++ indexName sg.table sg.column ++ " ON "
                  ++ sg.table ++ "(" ++ sg.column ++ ")")
    ∧ (∀ (env : Env) (s₁ s₂ : OptimizerState) (r₁ r₂ : Report),
        (generate_optimization_report env db s₁).result = Except.ok r₁ →
        (generate_optimization_report env db s₂).result = Except.ok r₂ →
        r₁.index_suggestions = r₂.index_suggestions) := by
  refine ⟨?_, fun sg hsg => ?_, fun env s₁ s₂ r₁ r₂ h₁ h₂ => ?_⟩
  · rw [suggest_indexes_eq, List.length_flatMap]
    simp only [Function.comp_def, List.length_map]
  · rw [suggest_indexes_eq] at hsg
    rcases List.mem_flatMap.mp hsg with ⟨tn, _, hm⟩
    rcases List.mem_map.mp hm with ⟨fk, _, rfl⟩
    rfl
  · have h := report_result_state_independent env db s₁ s₂
    rw [h₁, h₂] at h
    rw [Except.ok.injEq] at h
    rw [h]

/-- Witness for C3: on the §8 scenario database the single uncovered foreign
key gives length 1, the emitted DDL follows the naming scheme, and two
successful report runs from different states agree. -/
theorem suggest_indexes_deterministic_witness :
    (suggest_indexes dbOrders).length = 1
      ∧ (mkSuggestion "orders" "customer_id").sql
          = "CREATE INDEX " ++ indexName "orders" "customer_id" ++ " ON "
             ++ "orders" ++ "(" ++ "customer_id" ++ ")" := by
  constructor
  · rw [(suggest_indexes_deterministic dbOrders).1]
    decide
  · exact (suggest_indexes_deterministic dbOrders).2.1 (mkSuggestion "orders" "customer_id")
      (by decide)

/-- C4 counterexample: the enumeration `SELECT name FROM sqlite_master WHERE
type='table'` filters on the object kind only, so the internal bookkeeping
table `sqlite_sequence` — stored by SQLite in the catalog with type
`table` — is enumerated and analyzed like a user table, contradicting the
claim that internal/system catalog tables are excluded. -/
theorem table_enumeration_includes_internal :
    listTables dbInternal = ["users", "sqlite_sequence"]
      ∧ "sqlite_sequence" ∈ (analyze_table_structure dbInternal).map Prod.fst
      ∧ isInternalName "sqlite_sequence" = true := by
  decide

/-- C4 amended: the tables enumerated by `analyze_table_structure`,
`check_normalization` and `suggest_indexes` are exactly the catalog objects
of type `table` — so views, indexes and triggers are excluded — but no
name-based filtering of engine-internal tables is performed. -/
theorem table_enumeration_type_filter (db : Database) :
    (analyze_table_structure db).map Prod.fst
        = (db.objects.filter (fun r => r.type == "table")).map MasterRow.name
    ∧ (∀ i ∈ check_normalization db,
        i.table ∈ (db.objects.filter (fun r => r.type == "table")).map MasterRow.name)
    ∧ (∀ sg ∈ suggest_indexes db,
        sg.table ∈ (db.objects.filter (fun r => r.type == "table")).map MasterRow.name) := by
  refine ⟨?_, fun i hi => ?_, fun sg hsg => ?_⟩
  · unfold analyze_table_structure listTables
    rw [List.map_map]
    exact List.map_id _
  · unfold check_normalization at hi
    rcases List.mem_flatMap.mp hi with ⟨tn, htn, h₂⟩
    rcases List.mem_flatMap.mp h₂ with ⟨c, _, h₃⟩
    rcases List.mem_flatMap.mp h₃ with ⟨v, _, h₄⟩
    rcases normEmit_mem h₄ with ⟨s, _, _, rfl⟩
    exact htn
  · rw [suggest_indexes_eq] at hsg
    rcases List.mem_flatMap.mp hsg with ⟨tn, htn, hm⟩
    rcases List.mem_map.mp hm with ⟨fk, _, rfl⟩
    exact htn

/-- Witness for C4 amended, on the internal-table database: the analysis
keys are the type-table catalog names, and the scenario issue's table is
among them. -/
theorem table_enumeration_type_filter_witness :
    (analyze_table_structure dbInternal).map Prod.fst
        = (dbInternal.objects.filter (fun r => r.type == "table")).map MasterRow.name
      ∧ "orders" ∈ (dbOrders.objects.filter (fun r => r.type == "table")).map MasterRow.name := by
  constructor
  · exact (table_enumeration_type_filter dbInternal).1
  · exact (table_enumeration_type_filter dbOrders).2.2
      { table := "orders", column := "customer_id",
        suggestion := "Create index on foreign key column: customer_id",
        sql := "CREATE INDEX idx_orders_customer_id ON orders(customer_id)" }
      (by decide)

/-- C10: every issue `check_normalization` emits carries a non-empty sample
containing at least one delimiter character and the fixed issue text; and
the per-value loop body emits nothing for NULLs, numbers, blobs or empty
strings. -/
theorem normalization_issue_sample_invariant (db : Database) :
    (∀ i ∈ check_normalization db,
      i.sample.data.isEmpty = false ∧ hasDelimiter i.sample = true ∧ i.issue = normMsg)
    ∧ (∀ tn col, normEmit tn col SQLValue.null = []
        ∧ (∀ n, normEmit tn col (SQLValue.intVal n) = [])
        ∧ (∀ b, normEmit tn col (SQLValue.blob b) = [])
        ∧ normEmit tn col (SQLValue.text "") = []) := by
  refine ⟨fun i hi => ?_, fun tn col => ⟨rfl, fun n => rfl, fun b => rfl, rfl⟩⟩
  unfold check_normalization at hi
  rcases List.mem_flatMap.mp hi with ⟨tn, _, h₂⟩
  rcases List.mem_flatMap.mp h₂ with ⟨c, _, h₃⟩
  rcases List.mem_flatMap.mp h₃ with ⟨v, _, h₄⟩
  rcases normEmit_mem h₄ with ⟨s, _, hd, rfl⟩
  exact ⟨hasDelimiter_nonempty s hd, hd, rfl⟩

/-- Witness for C10 on the §8 scenario issue. -/
theorem normalization_issue_sample_invariant_witness :
    ("a,b,c" : String).data.isEmpty = false ∧ hasDelimiter "a,b,c" = true
      ∧ normMsg = normMsg := by
  have h := (normalization_issue_sample_invariant dbOrders).1
    { table := "orders", column := "notes", issue := normMsg, sample := "a,b,c" }
    (by decide)
  exact ⟨h.1, h.2.1, rfl⟩

/-- An environment in which no external call fails. -/
def envOK : Env :=
  { connectFails := false, analyzeFails := false, normalizeFails := false,
    suggestFails := false, createFails := fun _ => false, vacuumFails := false }

/-- A table with three uncovered foreign keys, giving three suggestions. -/
def tripleFkTable : Table :=
  { name := "t", columns := [], indexes := [],
    foreignKeys :=
      [ { id := 0, seq := 0, refTable := "a", fromCol := "x", toCol := "id" },
        { id := 1, seq := 0, refTable := "b", fromCol := "y", toCol := "id" },
        { id := 2, seq := 0, refTable := "c", fromCol := "z", toCol := "id" } ],
    colData := [] }

/-- A one-table database around `tripleFkTable`. -/
def dbTriple : Database :=
  { objects := [{ type := "table", name := "t" }], tables := [tripleFkTable] }

/-- An environment in which exactly the middle of `dbTriple`'s three CREATE
INDEX statements fails. -/
def envMidFail : Env :=
  { envOK with createFails := fun q => q == "CREATE INDEX idx_t_y ON t(y)" }

/-- An environment in which the VACUUM command fails. -/
def envVacFail : Env := { envOK with vacuumFails := true }

/-- An environment in which establishing the connection fails. -/
def envConnFail : Env := { envOK with connectFails := true }

/-- The report `generate_optimization_report` returns for `dbOrders` when
nothing fails. -/
def reportOrders : Report :=
  { table_analysis := analyze_table_structure dbOrders,
    normalization_issues := check_normalization dbOrders,
    index_suggestions := suggest_indexes dbOrders,
    query_optimizations := optimize_queries }

/-- C5: with index application enabled, every suggested statement is
attempted; a statement whose execution raises is logged and the loop goes on,
so the applied statements are exactly those the oracle lets through and the
logged ones the complement; if VACUUM does not fail the run returns normally
and commits, while a VACUUM failure propagates as the run's error and nothing
is committed. -/
theorem exec_index_errors_caught_vacuum_fatal (env : Env) (db : Database)
    (s : OptimizerState) (h₁ : env.connectFails = false) (h₂ : env.suggestFails = false) :
    (execute_optimization env db s true true).attempted
        = (suggest_indexes db).map IndexSuggestion.sql
    ∧ (execute_optimization env db s true true).applied
        = ((suggest_indexes db).map IndexSuggestion.sql).filter (fun q => !env.createFails q)
    ∧ (execute_optimization env db s true true).errorsLogged
        = ((suggest_indexes db).map IndexSuggestion.sql).filter (fun q => env.createFails q)
    ∧ (env.vacuumFails = false →
        (execute_optimization env db s true true).result = none
        ∧ (execute_optimization env db s true true).committed = true)
    ∧ (env.vacuumFails = true →
        (execute_optimization env db s true true).result
            = some (DbError.executionError "VACUUM")
        ∧ (execute_optimization env db s true true).committed = false) := by
  have hrl := runIndexLoop_applied_logged env db (suggest_indexes db)
  cases hv : env.vacuumFails <;>
    simp [execute_optimization, connect, h₁, h₂, hv, hrl.1, hrl.2]

/-- Witness for C5: on `dbTriple`, with the middle CREATE INDEX failing, the
first and third statements are still applied and the run commits; and with a
failing VACUUM the run ends in the propagated execution error without
committing. -/
theorem exec_index_errors_caught_vacuum_fatal_witness :
    (execute_optimization envMidFail dbTriple { conn := none } true true).applied
        = ["CREATE INDEX idx_t_x ON t(x)", "CREATE INDEX idx_t_z ON t(z)"]
    ∧ (execute_optimization envMidFail dbTriple { conn := none } true true).errorsLogged
        = ["CREATE INDEX idx_t_y ON t(y)"]
    ∧ (execute_optimization envMidFail dbTriple { conn := none } true true).result = none
    ∧ (execute_optimization envMidFail dbTriple { conn := none } true true).committed = true
    ∧ (execute_optimization envVacFail dbTriple { conn := none } true true).result
        = some (DbError.executionError "VACUUM")
    ∧ (execute_optimization envVacFail dbTriple { conn := none } true true).committed = false := by
  have h := exec_index_errors_caught_vacuum_fatal envMidFail dbTriple { conn := none } rfl rfl
  have h' := exec_index_errors_caught_vacuum_fatal envVacFail dbTriple { conn := none } rfl rfl
  exact ⟨h.2.1.trans (by decide), h.2.2.1.trans (by decide),
    (h.2.2.2.1 rfl).1, (h.2.2.2.1 rfl).2, (h'.2.2.2.2 rfl).1, (h'.2.2.2.2 rfl).2⟩

/-- C6: the report pass reaches its `finally` release on every exit path and
never leaves an open connection behind; if connecting or any analysis step
fails the pass returns that error — no partial report — and otherwise it
returns the full four-part report. -/
theorem report_releases_connection_and_propagates (env : Env) (db : Database)
    (s : OptimizerState) :
    (generate_optimization_report env db s).closeAttempted = true
    ∧ connOpen (generate_optimization_report env db s).finalState = false
    ∧ ((env.connectFails || env.analyzeFails || env.normalizeFails || env.suggestFails) = true →
        ∃ e, (generate_optimization_report env db s).result = Except.error e)
    ∧ ((env.connectFails || env.analyzeFails || env.normalizeFails || env.suggestFails) = false →
        (generate_optimization_report env db s).result
          = Except.ok { table_analysis := analyze_table_structure db,
                        normalization_issues := check_normalization db,
                        index_suggestions := suggest_indexes db,
                        query_optimizations := optimize_queries }) := by
  obtain ⟨cOpt⟩ := s
  cases cOpt <;> cases hc : env.connectFails <;> cases ha : env.analyzeFails <;>
    cases hn : env.normalizeFails <;> cases hs : env.suggestFails <;>
      simp [generate_optimization_report, connect, close, connOpen, hc, ha, hn, hs]

/-- Witness for C6: with a failing analysis step the pass returns an error
after the release, and with nothing failing it returns the full report. -/
theorem report_releases_connection_and_propagates_witness :
    (generate_optimization_report { envOK with analyzeFails := true } dbOrders
        { conn := none }).closeAttempted = true
    ∧ (∃ e, (generate_optimization_report { envOK with analyzeFails := true } dbOrders
        { conn := none }).result = Except.error e)
    ∧ (generate_optimization_report envOK dbOrders { conn := none }).result
        = Except.ok reportOrders := by
  refine ⟨(report_releases_connection_and_propagates
      { envOK with analyzeFails := true } dbOrders { conn := none }).1,
    (report_releases_connection_and_propagates
      { envOK with analyzeFails := true } dbOrders { conn := none }).2.2.1 rfl,
    (report_releases_connection_and_propagates envOK dbOrders { conn := none }).2.2.2 rfl⟩

/-- C7: running the report pass a second time, from whatever state the first
run left behind, gives the same result against the unmodified database; in
particular two successful runs return reports with identical index
suggestions, table analysis, normalization issues and query advice. -/
theorem report_rerun_identical (env : Env) (db : Database) (s : OptimizerState) :
    (generate_optimization_report env db
        (generate_optimization_report env db s).finalState).result
      = (generate_optimization_report env db s).result
    ∧ (∀ r₁ r₂ : Report,
        (generate_optimization_report env db s).result = Except.ok r₁ →
        (generate_optimization_report env db
            (generate_optimization_report env db s).finalState).result = Except.ok r₂ →
        r₂.index_suggestions = r₁.index_suggestions
          ∧ r₂.table_analysis = r₁.table_analysis
          ∧ r₂.normalization_issues = r₁.normalization_issues
          ∧ r₂.query_optimizations = r₁.query_optimizations) := by
  have h := report_result_state_independent env db
    (generate_optimization_report env db s).finalState s
  refine ⟨h, fun r₁ r₂ h₁ h₂ => ?_⟩
  rw [h₂, h₁, Except.ok.injEq] at h
  rw [h]
  exact ⟨rfl, rfl, rfl, rfl⟩

/-- Witness for C7: two consecutive failure-free runs against `dbOrders`
agree, with both results being the full report. -/
theorem report_rerun_identical_witness :
    (generate_optimization_report envOK dbOrders
        (generate_optimization_report envOK dbOrders { conn := none }).finalState).result
      = (generate_optimization_report envOK dbOrders { conn := none }).result
    ∧ reportOrders.index_suggestions = reportOrders.index_suggestions
    ∧ reportOrders.table_analysis = reportOrders.table_analysis := by
  have h := report_rerun_identical envOK dbOrders { conn := none }
  have h₂ := h.2 reportOrders reportOrders rfl rfl
  exact ⟨h.1, h₂.1, h₂.2.1⟩

/-- C8: `close()` on an optimizer that holds no connection does nothing and
raises nothing; therefore the `finally` release in the report and execution
passes is safe when `connect()` itself fails — both runs then end with the
untouched state and the release reached. -/
theorem close_without_connection_safe (env : Env) (db : Database)
    (s : OptimizerState) (h : s.conn = none) :
    close s = (s, false)
    ∧ (env.connectFails = true →
        (generate_optimization_report env db s).finalState = s
        ∧ (generate_optimization_report env db s).closeAttempted = true
        ∧ (execute_optimization env db s true true).finalState = s
        ∧ (execute_optimization env db s true true).closeAttempted = true) := by
  obtain ⟨cOpt⟩ := s
  subst h
  refine ⟨rfl, fun hc => ?_⟩
  simp [generate_optimization_report, execute_optimization, connect, close, hc]

/-- Witness for C8: with no connection established and `connect()` failing,
`close` is a no-op and both passes still reach their release. -/
theorem close_without_connection_safe_witness :
    close { conn := none } = ({ conn := none }, false)
    ∧ (generate_optimization_report envConnFail dbOrders { conn := none }).finalState
        = { conn := none }
    ∧ (execute_optimization envConnFail dbOrders { conn := none } true true).closeAttempted
        = true := by
  have h := close_without_connection_safe envConnFail dbOrders { conn := none } rfl
  exact ⟨h.1, (h.2 rfl).1, (h.2 rfl).2.2.2⟩

/-- C9: with both flags off, `execute_optimization` attempts no CREATE INDEX
statement and no VACUUM and leaves the database unchanged, yet it still
connects, commits, returns normally and releases the connection. -/
theorem exec_noop_without_flags (env : Env) (db : Database) (s : OptimizerState)
    (h : env.connectFails = false) :
    (execute_optimization env db s false false).attempted = []
    ∧ (execute_optimization env db s false false).applied = []
    ∧ (execute_optimization env db s false false).vacuumed = false
    ∧ (execute_optimization env db s false false).dbAfter = db
    ∧ (execute_optimization env db s false false).connected = true
    ∧ (execute_optimization env db s false false).committed = true
    ∧ (execute_optimization env db s false false).result = none
    ∧ (execute_optimization env db s false false).closeAttempted = true := by
  simp [execute_optimization, connect, h, runIndexLoop]

/-- Witness for C9 on `dbOrders` in the failure-free environment. -/
theorem exec_noop_without_flags_witness :
    (execute_optimization envOK dbOrders { conn := none } false false).attempted = []
    ∧ (execute_optimization envOK dbOrders { conn := none } false false).dbAfter = dbOrders
    ∧ (execute_optimization envOK dbOrders { conn := none } false false).committed = true := by
  have h := exec_noop_without_flags envOK dbOrders { conn := none } rfl
  exact ⟨h.1, h.2.2.2.1, h.2.2.2.2.2.1⟩

end DbOptimizer
